import Mathlib

/-!
Verification of the predator-prey simulator described by the repository's
design document.  The repository's notebook imports the simulator as
`from model.pred_prey import PredPrey`; the file `model/pred_prey.py` itself
is not part of the sources available here, so the simulator is modelled
from the specification text (§3, §4.1, §6, §7 of the design document),
while the notebook-level configuration (uncertainty ranges) is taken
directly from the notebook source.

All real numbers are embedded as rationals `ℚ`; explicit Euler integration
(the integrator the specification names first) is used for the step rule.
-/

/-- Modelled from the spec: a numeric input value as the simulator receives
it.  The missing `model/pred_prey.py` receives floating-point rates which may
be NaN or infinite; finite values carry a rational payload. -/
inductive FloatVal where
  | fin : ℚ → FloatVal
  | nan : FloatVal
  | inf : FloatVal
  | neginf : FloatVal
deriving DecidableEq

/-- A `FloatVal` is finite exactly when it carries a rational payload. -/
def FloatVal.isFinite : FloatVal → Bool
  | .fin _ => true
  | _ => false

/-- The rational payload of a finite value (0 for non-finite values, which
never reach the integrator). -/
def FloatVal.toRat : FloatVal → ℚ
  | .fin q => q
  | _ => 0

/-- Modelled from the spec: the validated simulation parameters of the
missing `model/pred_prey.py` — four rate parameters, initial populations,
total simulated time and integration step size (§3 Data Model). -/
structure Params where
  prey_birth_rate : ℚ
  predation_rate : ℚ
  predator_efficiency : ℚ
  predator_loss_rate : ℚ
  initial_prey : ℚ
  initial_predators : ℚ
  total_time : ℚ
  step_size : ℚ
deriving DecidableEq

/-- Modelled from the spec: d(prey)/dt = prey_birth_rate * prey -
predation_rate * prey * predator (§4.1 Algorithm). -/
def dPrey (p : Params) (prey predators : ℚ) : ℚ :=
  p.prey_birth_rate * prey - p.predation_rate * prey * predators

/-- Modelled from the spec: d(predator)/dt = predator_efficiency * prey *
predator - predator_loss_rate * predator (§4.1 Algorithm). -/
def dPredators (p : Params) (prey predators : ℚ) : ℚ :=
  p.predator_efficiency * prey * predators - p.predator_loss_rate * predators

/-- Modelled from the spec: one explicit-Euler step — advance both
populations by derivative × step size (§4.1 Algorithm). -/
def eulerStep (p : Params) (s : ℚ × ℚ) : ℚ × ℚ :=
  (s.1 + dPrey p s.1 s.2 * p.step_size,
   s.2 + dPredators p s.1 s.2 * p.step_size)

/-- Modelled from the spec: the population state after `n` integration
steps, beginning at the initial populations. -/
def state (p : Params) : ℕ → ℚ × ℚ
  | 0 => (p.initial_prey, p.initial_predators)
  | n + 1 => eulerStep p (state p n)

/-- Modelled from the spec: the number of integration steps,
`⌊total_time / step_size⌋`; the trajectory has one more sample than steps
(§4.1, §8). -/
def numSteps (p : Params) : ℕ :=
  (Int.floor (p.total_time / p.step_size)).toNat

/-- Modelled from the spec: the elapsed-time output sequence, one sample per
integration step from 0 through the horizon. -/
def timeSeq (p : Params) : List ℚ :=
  (List.range (numSteps p + 1)).map (fun (i : ℕ) => (i : ℚ) * p.step_size)

/-- Modelled from the spec: the prey-population output sequence. -/
def preySeq (p : Params) : List ℚ :=
  (List.range (numSteps p + 1)).map (fun i => (state p i).1)

/-- Modelled from the spec: the predator-population output sequence. -/
def predatorsSeq (p : Params) : List ℚ :=
  (List.range (numSteps p + 1)).map (fun i => (state p i).2)

/-- Modelled from the spec: the simulator's output, a named mapping from
output-variable name ("TIME", "predators", "prey") to an ordered sequence
of numbers (§6 External Interfaces). -/
def simulate (p : Params) : List (String × List ℚ) :=
  [("TIME", timeSeq p), ("predators", predatorsSeq p), ("prey", preySeq p)]

/-- Modelled from the spec: the single error kind of the simulator's failure
taxonomy (§7 Error Handling Design). -/
inductive SimError where
  | InvalidParameter : SimError
deriving DecidableEq

/-- Modelled from the spec: the raw, unvalidated arguments of the missing
`model/pred_prey.py` — rates may be non-finite floats. -/
structure RawParams where
  prey_birth_rate : FloatVal
  predation_rate : FloatVal
  predator_efficiency : FloatVal
  predator_loss_rate : FloatVal
  initial_prey : ℚ
  initial_predators : ℚ
  total_time : ℚ
  step_size : ℚ

/-- Extraction of validated parameters from raw arguments. -/
def RawParams.toParams (r : RawParams) : Params :=
  ⟨r.prey_birth_rate.toRat, r.predation_rate.toRat,
   r.predator_efficiency.toRat, r.predator_loss_rate.toRat,
   r.initial_prey, r.initial_predators, r.total_time, r.step_size⟩

/-- Modelled from the spec: the validity check of the missing
`model/pred_prey.py` — every rate finite, step size positive and not
exceeding the horizon (§4.1 Failure semantics). -/
def validParams (r : RawParams) : Bool :=
  r.prey_birth_rate.isFinite && r.predation_rate.isFinite &&
  r.predator_efficiency.isFinite && r.predator_loss_rate.isFinite &&
  decide (0 < r.step_size) && decide (r.step_size ≤ r.total_time)

/-- Modelled from the spec: the simulator entry point of the missing
`model/pred_prey.py`.  Validation happens synchronously before any
integration step; on invalid input the single `InvalidParameter` error is
returned, otherwise the full trajectory mapping. -/
def PredPrey (r : RawParams) : Except SimError (List (String × List ℚ)) :=
  if validParams r then Except.ok (simulate r.toParams)
  else Except.error SimError.InvalidParameter

/-- The notebook's uncertainty ranges: name, lower bound, upper bound
(from the `uncertainties` list in the notebook source). -/
def uncertainties : List (String × ℚ × ℚ) :=
  [("prey_birth_rate", 15/1000, 35/1000),
   ("predation_rate", 5/10000, 3/1000),
   ("predator_efficiency", 1/1000, 4/1000),
   ("predator_loss_rate", 4/100, 8/100)]

/-- Raw arguments as the notebook's experiment driver supplies them: four
sampled rates over the simulator's default initial populations, horizon 365
and step size 0.25 (spec §4.1 defaults and the notebook parameter table). -/
def defaultRaw (a b c d : ℚ) : RawParams :=
  ⟨FloatVal.fin a, FloatVal.fin b, FloatVal.fin c, FloatVal.fin d,
   50, 20, 365, 1/4⟩

/-- The concrete scenario of spec §8: rates 0.025, 0.0015, 0.0025, 0.06,
horizon 365, step 0.25, initial populations 50 and 20. -/
def scenarioParams : Params :=
  ⟨1/40, 3/2000, 1/400, 3/50, 50, 20, 365, 1/4⟩

/-- The concrete scenario of spec §8 as raw arguments. -/
def scenarioRaw : RawParams :=
  defaultRaw (1/40) (3/2000) (1/400) (3/50)

/-- Parameters with all four rates zero (spec §8 boundary scenario). -/
def zeroRatesParams : Params :=
  ⟨0, 0, 0, 0, 50, 20, 365, 1/4⟩

/-!
Verified interval enclosure of the scenario trajectory.

To certify the oscillation required by the concrete scenario of spec §8 we
enclose the exact rational trajectory in dyadic interval boxes: bounds are
integers scaled by `bsc = 2 ^ 60`, lower bounds are rounded down with floor
division, upper bounds up.  All box arithmetic is over `ℤ`, so it can be
evaluated by `decide`.
-/

/-- The dyadic scale of the interval certificates. -/
def bsc : ℤ := 2 ^ 60

/-- An interval box: scaled lower/upper bounds for prey and predators. -/
structure BoxZ where
  pl : ℤ
  pu : ℤ
  ql : ℤ
  qu : ℤ
deriving DecidableEq

/-- `s` lies in the box `B` (after scaling by `bsc`). -/
def memBoxZ (B : BoxZ) (s : ℚ × ℚ) : Prop :=
  (B.pl : ℚ) ≤ s.1 * (bsc : ℚ) ∧ s.1 * (bsc : ℚ) ≤ (B.pu : ℚ) ∧
  (B.ql : ℚ) ≤ s.2 * (bsc : ℚ) ∧ s.2 * (bsc : ℚ) ≤ (B.qu : ℚ)

/-- One outward-rounded interval image of the scenario Euler step.  For the
scenario rates the step is `x' = (161/160)x - (3/8000)xy` and
`y' = (197/200)y + (1/1600)xy`; on `bsc`-scaled bounds this becomes the
integer expressions below, divided by `8000 * bsc` resp. `1600 * bsc`. -/
def stepBoxZ (B : BoxZ) : BoxZ :=
  ⟨(8050 * B.pl * bsc - 3 * B.pu * B.qu) / (8000 * bsc),
   -(-(8050 * B.pu * bsc - 3 * B.pl * B.ql) / (8000 * bsc)),
   (1576 * B.ql * bsc + B.pl * B.ql) / (1600 * bsc),
   -(-(1576 * B.qu * bsc + B.pu * B.qu) / (1600 * bsc))⟩

/-- The degenerate starting box at the scenario initial state (50, 20). -/
def startBoxZ : BoxZ := ⟨50 * bsc, 50 * bsc, 20 * bsc, 20 * bsc⟩

/-- Iterated boxes together with a flag recording that every box so far has
non-negative lower bounds (needed for soundness of the interval step). -/
def boxIter : ℕ → BoxZ × Bool
  | 0 => (startBoxZ, decide (0 ≤ startBoxZ.pl) && decide (0 ≤ startBoxZ.ql))
  | n + 1 =>
    let prev := boxIter n
    let B := stepBoxZ prev.1
    (B, prev.2 && decide (0 ≤ B.pl) && decide (0 ≤ B.ql))

/-- Floor division under-approximates the rational quotient. -/
theorem ediv_cast_le {a b : ℤ} (hb : 0 < b) :
    (b : ℚ) * ((a / b : ℤ) : ℚ) ≤ (a : ℚ) := by
  have h1 : b * (a / b) ≤ a := by
    have h2 := Int.ediv_add_emod a b
    have h3 := Int.emod_nonneg a (ne_of_gt hb)
    linarith
  exact_mod_cast h1

/-- Negated floor division of the negation over-approximates the quotient. -/
theorem le_neg_ediv_neg_cast {a b : ℤ} (hb : 0 < b) :
    (a : ℚ) ≤ (b : ℚ) * ((-(-a / b) : ℤ) : ℚ) := by
  have h1 : a ≤ b * -(-a / b) := by
    have h2 := Int.ediv_add_emod (-a) b
    have h3 := Int.emod_nonneg (-a) (ne_of_gt hb)
    nlinarith
  exact_mod_cast h1

theorem bsc_cast_pos : (0 : ℚ) < (bsc : ℚ) := by norm_num [bsc]

/-- The scenario Euler step, written out. -/
theorem eulerStep_scenario (s : ℚ × ℚ) :
    eulerStep scenarioParams s =
      (s.1 + (1/40 * s.1 - 3/2000 * s.1 * s.2) * (1/4),
       s.2 + (1/400 * s.1 * s.2 - 3/50 * s.2) * (1/4)) := rfl

/-- Soundness of one interval step: a state inside a non-negative box is
mapped by the scenario Euler step into the stepped box. -/
theorem stepBoxZ_sound (B : BoxZ) (hpl : 0 ≤ B.pl) (hql : 0 ≤ B.ql)
    (s : ℚ × ℚ) (hs : memBoxZ B s) :
    memBoxZ (stepBoxZ B) (eulerStep scenarioParams s) := by
  obtain ⟨h1, h2, h3, h4⟩ := hs
  have hsc : (0 : ℚ) < (bsc : ℚ) := bsc_cast_pos
  have hpl' : (0 : ℚ) ≤ (B.pl : ℚ) := by exact_mod_cast hpl
  have hql' : (0 : ℚ) ≤ (B.ql : ℚ) := by exact_mod_cast hql
  have hX0 : (0 : ℚ) ≤ s.1 * (bsc : ℚ) := le_trans hpl' h1
  have hY0 : (0 : ℚ) ≤ s.2 * (bsc : ℚ) := le_trans hql' h3
  have hPu0 : (0 : ℚ) ≤ (B.pu : ℚ) := le_trans hX0 h2
  have hQu0 : (0 : ℚ) ≤ (B.qu : ℚ) := le_trans hY0 h4
  have hXYu : s.1 * (bsc : ℚ) * (s.2 * (bsc : ℚ)) ≤ (B.pu : ℚ) * (B.qu : ℚ) :=
    mul_le_mul h2 h4 hY0 hPu0
  have hXYl : (B.pl : ℚ) * (B.ql : ℚ) ≤ s.1 * (bsc : ℚ) * (s.2 * (bsc : ℚ)) :=
    mul_le_mul h1 h3 hql' hX0
  have hden1 : (0 : ℤ) < 8000 * bsc := by norm_num [bsc]
  have hden2 : (0 : ℤ) < 1600 * bsc := by norm_num [bsc]
  have hden1q : (0 : ℚ) < ((8000 * bsc : ℤ) : ℚ) := by exact_mod_cast hden1
  have hden2q : (0 : ℚ) < ((1600 * bsc : ℤ) : ℚ) := by exact_mod_cast hden2
  rw [eulerStep_scenario]
  refine ⟨?_, ?_, ?_, ?_⟩
  · -- prey lower bound
    have hf := ediv_cast_le (a := 8050 * B.pl * bsc - 3 * B.pu * B.qu) hden1
    have hnum : ((8050 * B.pl * bsc - 3 * B.pu * B.qu : ℤ) : ℚ) ≤
        ((8000 * bsc : ℤ) : ℚ) *
          ((s.1 + (1/40 * s.1 - 3/2000 * s.1 * s.2) * (1/4)) * (bsc : ℚ)) := by
      push_cast
      nlinarith [hXYu, mul_le_mul_of_nonneg_right h1 (le_of_lt hsc)]
    have := le_of_mul_le_mul_left (le_trans hf hnum) hden1q
    simpa [stepBoxZ] using this
  · -- prey upper bound
    have hf := le_neg_ediv_neg_cast (a := 8050 * B.pu * bsc - 3 * B.pl * B.ql) hden1
    have hnum : ((8000 * bsc : ℤ) : ℚ) *
          ((s.1 + (1/40 * s.1 - 3/2000 * s.1 * s.2) * (1/4)) * (bsc : ℚ)) ≤
        ((8050 * B.pu * bsc - 3 * B.pl * B.ql : ℤ) : ℚ) := by
      push_cast
      nlinarith [hXYl, mul_le_mul_of_nonneg_right h2 (le_of_lt hsc)]
    have := le_of_mul_le_mul_left (le_trans hnum hf) hden1q
    simpa [stepBoxZ] using this
  · -- predators lower bound
    have hf := ediv_cast_le (a := 1576 * B.ql * bsc + B.pl * B.ql) hden2
    have hnum : ((1576 * B.ql * bsc + B.pl * B.ql : ℤ) : ℚ) ≤
        ((1600 * bsc : ℤ) : ℚ) *
          ((s.2 + (1/400 * s.1 * s.2 - 3/50 * s.2) * (1/4)) * (bsc : ℚ)) := by
      push_cast
      nlinarith [hXYl, mul_le_mul_of_nonneg_right h3 (le_of_lt hsc)]
    have := le_of_mul_le_mul_left (le_trans hf hnum) hden2q
    simpa [stepBoxZ] using this
  · -- predators upper bound
    have hf := le_neg_ediv_neg_cast (a := 1576 * B.qu * bsc + B.pu * B.qu) hden2
    have hnum : ((1600 * bsc : ℤ) : ℚ) *
          ((s.2 + (1/400 * s.1 * s.2 - 3/50 * s.2) * (1/4)) * (bsc : ℚ)) ≤
        ((1576 * B.qu * bsc + B.pu * B.qu : ℤ) : ℚ) := by
      push_cast
      nlinarith [hXYu, mul_le_mul_of_nonneg_right h4 (le_of_lt hsc)]
    have := le_of_mul_le_mul_left (le_trans hnum hf) hden2q
    simpa [stepBoxZ] using this

/-- The box flag is monotone: if it holds at `n + 1` it held at `n`. -/
theorem boxIter_flag_mono (n : ℕ) (h : (boxIter (n + 1)).2 = true) :
    (boxIter n).2 = true := by
  simp only [boxIter, Bool.and_eq_true] at h
  exact h.1.1

/-- A true box flag gives non-negative lower bounds of the current box. -/
theorem boxIter_flag_nonneg (n : ℕ) (h : (boxIter n).2 = true) :
    0 ≤ (boxIter n).1.pl ∧ 0 ≤ (boxIter n).1.ql := by
  cases n with
  | zero =>
    simp only [boxIter, Bool.and_eq_true, decide_eq_true_iff] at h
    exact h
  | succ n =>
    simp only [boxIter, Bool.and_eq_true, decide_eq_true_iff] at h
    exact ⟨h.1.2, h.2⟩

/-- Soundness of the interval iteration: while the flag holds, the exact
scenario trajectory lies inside the iterated boxes. -/
theorem boxIter_sound (n : ℕ) (h : (boxIter n).2 = true) :
    memBoxZ (boxIter n).1 (state scenarioParams n) := by
  induction n with
  | zero =>
    have h50 : ((50 * bsc : ℤ) : ℚ) = 50 * (bsc : ℚ) := by push_cast; ring
    have h20 : ((20 * bsc : ℤ) : ℚ) = 20 * (bsc : ℚ) := by push_cast; ring
    exact ⟨le_of_eq h50, le_of_eq h50.symm, le_of_eq h20, le_of_eq h20.symm⟩
  | succ n ih =>
    have hn := boxIter_flag_mono n h
    have hnn := boxIter_flag_nonneg n hn
    have hmem := ih hn
    have := stepBoxZ_sound (boxIter n).1 hnn.1 hnn.2 (state scenarioParams n) hmem
    simpa [boxIter, state] using this

set_option maxRecDepth 4000 in
/-- Evaluated interval certificate: the flag holds through step 250, the
predator upper bound at step 250 is below 50/3, the prey lower bound there
is positive, the prey upper bound at step 96 is below 24, and the predator
lower bound there is positive. -/
theorem oscCert :
    (boxIter 250).2 = true ∧ 3 * (boxIter 250).1.qu < 50 * bsc ∧
    0 < (boxIter 250).1.pl ∧ (boxIter 96).1.pu < 24 * bsc ∧
    0 < (boxIter 96).1.ql := by
  decide

/-- In the scenario, the prey population strictly decreases at step 0. -/
theorem prey_dec_0 : (state scenarioParams 1).1 < (state scenarioParams 0).1 := by
  norm_num [state, eulerStep, dPrey, dPredators, scenarioParams]

/-- In the scenario, the predator population strictly increases at step 0. -/
theorem predators_inc_0 :
    (state scenarioParams 0).2 < (state scenarioParams 1).2 := by
  norm_num [state, eulerStep, dPrey, dPredators, scenarioParams]

/-- In the scenario, the prey population strictly increases at step 250. -/
theorem prey_inc_250 :
    (state scenarioParams 250).1 < (state scenarioParams 251).1 := by
  obtain ⟨h1, h2, h3, h4⟩ := boxIter_sound 250 oscCert.1
  have hsc := bsc_cast_pos
  have hplpos : (0 : ℚ) < ((boxIter 250).1.pl : ℚ) := by exact_mod_cast oscCert.2.2.1
  have hquq : 3 * ((boxIter 250).1.qu : ℚ) < 50 * (bsc : ℚ) := by
    exact_mod_cast oscCert.2.1
  have hx0 : (0 : ℚ) * (bsc : ℚ) < (state scenarioParams 250).1 * (bsc : ℚ) := by
    simpa using lt_of_lt_of_le hplpos h1
  have hxpos : 0 < (state scenarioParams 250).1 :=
    lt_of_mul_lt_mul_right hx0 (le_of_lt hsc)
  have hy3 : (3 * (state scenarioParams 250).2) * (bsc : ℚ) < 50 * (bsc : ℚ) := by
    nlinarith
  have hylt : 3 * (state scenarioParams 250).2 < 50 :=
    lt_of_mul_lt_mul_right hy3 (le_of_lt hsc)
  have hfac : (0 : ℚ) < 1/40 - 3/2000 * (state scenarioParams 250).2 := by linarith
  have hstep : state scenarioParams 251 =
      eulerStep scenarioParams (state scenarioParams 250) := rfl
  rw [hstep, eulerStep_scenario]
  dsimp only
  nlinarith [mul_pos hxpos hfac]

/-- The box flag at step `m + k` implies the box flag at step `m`. -/
theorem boxIter_flag_le (m k : ℕ) (h : (boxIter (m + k)).2 = true) :
    (boxIter m).2 = true := by
  induction k with
  | zero => exact h
  | succ k ih => exact ih (boxIter_flag_mono (m + k) h)

set_option maxRecDepth 4000 in
/-- In the scenario, the predator population strictly decreases at step 96. -/
theorem predators_dec_96 :
    (state scenarioParams 97).2 < (state scenarioParams 96).2 := by
  have hflag : (boxIter 96).2 = true := boxIter_flag_le 96 154 oscCert.1
  obtain ⟨h1, h2, h3, h4⟩ := boxIter_sound 96 hflag
  have hsc := bsc_cast_pos
  have hqlpos : (0 : ℚ) < ((boxIter 96).1.ql : ℚ) := by exact_mod_cast oscCert.2.2.2.2
  have hpuq : ((boxIter 96).1.pu : ℚ) < 24 * (bsc : ℚ) := by
    exact_mod_cast oscCert.2.2.2.1
  have hy0 : (0 : ℚ) * (bsc : ℚ) < (state scenarioParams 96).2 * (bsc : ℚ) := by
    simpa using lt_of_lt_of_le hqlpos h3
  have hypos : 0 < (state scenarioParams 96).2 :=
    lt_of_mul_lt_mul_right hy0 (le_of_lt hsc)
  have hx24 : (state scenarioParams 96).1 * (bsc : ℚ) < 24 * (bsc : ℚ) :=
    lt_of_le_of_lt h2 hpuq
  have hxlt : (state scenarioParams 96).1 < 24 :=
    lt_of_mul_lt_mul_right hx24 (le_of_lt hsc)
  have hfac : (0 : ℚ) < 3/50 - 1/400 * (state scenarioParams 96).1 := by linarith
  have hstep : state scenarioParams 97 =
      eulerStep scenarioParams (state scenarioParams 96) := rfl
  rw [hstep, eulerStep_scenario]
  dsimp only
  nlinarith [mul_pos hypos hfac]

/-- The time sequence has one sample per step plus the initial one. -/
theorem timeSeq_length (p : Params) : (timeSeq p).length = numSteps p + 1 := by
  rw [timeSeq, List.length_map, List.length_range]

/-- The prey sequence has one sample per step plus the initial one. -/
theorem preySeq_length (p : Params) : (preySeq p).length = numSteps p + 1 := by
  rw [preySeq, List.length_map, List.length_range]

/-- The predator sequence has one sample per step plus the initial one. -/
theorem predatorsSeq_length (p : Params) :
    (predatorsSeq p).length = numSteps p + 1 := by
  rw [predatorsSeq, List.length_map, List.length_range]

/-- The `i`-th time sample is `i * step_size`. -/
theorem timeSeq_get? (p : Params) {i : ℕ} (h : i < numSteps p + 1) :
    (timeSeq p).get? i = some ((i : ℚ) * p.step_size) := by
  rw [List.get?_eq_getElem?, timeSeq, List.getElem?_map, List.getElem?_range h]
  rfl

/-- The `i`-th prey sample is the prey component of the `i`-th state. -/
theorem preySeq_get? (p : Params) {i : ℕ} (h : i < numSteps p + 1) :
    (preySeq p).get? i = some ((state p i).1) := by
  rw [List.get?_eq_getElem?, preySeq, List.getElem?_map, List.getElem?_range h]
  rfl

/-- The `i`-th predator sample is the predator component of the state. -/
theorem predatorsSeq_get? (p : Params) {i : ℕ} (h : i < numSteps p + 1) :
    (predatorsSeq p).get? i = some ((state p i).2) := by
  rw [List.get?_eq_getElem?, predatorsSeq, List.getElem?_map, List.getElem?_range h]
  rfl

/-- `List.get` version of `preySeq_get?`. -/
theorem preySeq_get (p : Params) (i : ℕ) (h : i < (preySeq p).length) :
    (preySeq p).get ⟨i, h⟩ = (state p i).1 := by
  have h' : i < numSteps p + 1 := by simpa [preySeq_length] using h
  have hq := preySeq_get? p h'
  rw [List.get?_eq_get h] at hq
  exact Option.some.inj hq

/-- `List.get` version of `predatorsSeq_get?`. -/
theorem predatorsSeq_get (p : Params) (i : ℕ) (h : i < (predatorsSeq p).length) :
    (predatorsSeq p).get ⟨i, h⟩ = (state p i).2 := by
  have h' : i < numSteps p + 1 := by simpa [predatorsSeq_length] using h
  have hq := predatorsSeq_get? p h'
  rw [List.get?_eq_get h] at hq
  exact Option.some.inj hq

/-- `List.get` version of `timeSeq_get?`. -/
theorem timeSeq_get (p : Params) (i : ℕ) (h : i < (timeSeq p).length) :
    (timeSeq p).get ⟨i, h⟩ = (i : ℚ) * p.step_size := by
  have h' : i < numSteps p + 1 := by simpa [timeSeq_length] using h
  have hq := timeSeq_get? p h'
  rw [List.get?_eq_get h] at hq
  exact Option.some.inj hq

/-- The scenario has 1460 integration steps. -/
theorem numSteps_scenario : numSteps scenarioParams = 1460 := by
  norm_num [numSteps, scenarioParams]
  rfl

/-- The scenario raw arguments pass validation. -/
theorem validParams_scenario : validParams scenarioRaw = true := by
  simp only [validParams, scenarioRaw, defaultRaw, FloatVal.isFinite,
    Bool.and_eq_true, decide_eq_true_iff]
  norm_num

/-- Scenario raw arguments validate to the scenario parameters. -/
theorem scenarioRaw_toParams : scenarioRaw.toParams = scenarioParams := rfl

/-- C2: with prey_birth_rate = 0.025, predation_rate = 0.0015,
predator_efficiency = 0.0025, predator_loss_rate = 0.06, total_time = 365,
step_size = 0.25, initial prey = 50 and initial predators = 20, the
simulator succeeds and returns exactly 1461 samples in each of the three
sequences, the first (time, prey, predator) triple is (0, 50, 20), and both
the prey and the predator sequences are non-monotonic (they are neither
chains of `≤` nor chains of `≥`) over the horizon. -/
theorem claim_C2_concrete_scenario :
    PredPrey scenarioRaw = Except.ok (simulate scenarioParams) ∧
    (timeSeq scenarioParams).length = 1461 ∧
    (preySeq scenarioParams).length = 1461 ∧
    (predatorsSeq scenarioParams).length = 1461 ∧
    (timeSeq scenarioParams).get? 0 = some 0 ∧
    (preySeq scenarioParams).get? 0 = some 50 ∧
    (predatorsSeq scenarioParams).get? 0 = some 20 ∧
    ¬ List.Chain' (· ≤ ·) (preySeq scenarioParams) ∧
    ¬ List.Chain' (· ≥ ·) (preySeq scenarioParams) ∧
    ¬ List.Chain' (· ≤ ·) (predatorsSeq scenarioParams) ∧
    ¬ List.Chain' (· ≥ ·) (predatorsSeq scenarioParams) := by
  have hns : numSteps scenarioParams = 1460 := numSteps_scenario
  have hlt : (timeSeq scenarioParams).length = 1461 := by
    rw [timeSeq_length, hns]
  have hlp : (preySeq scenarioParams).length = 1461 := by
    rw [preySeq_length, hns]
  have hld : (predatorsSeq scenarioParams).length = 1461 := by
    rw [predatorsSeq_length, hns]
  have h0 : (0 : ℕ) < numSteps scenarioParams + 1 := by omega
  refine ⟨?_, hlt, hlp, hld, ?_, ?_, ?_, ?_, ?_, ?_, ?_⟩
  · rw [PredPrey, validParams_scenario, if_pos rfl, scenarioRaw_toParams]
  · rw [timeSeq_get? scenarioParams h0]
    norm_num
  · rw [preySeq_get? scenarioParams h0]
    rfl
  · rw [predatorsSeq_get? scenarioParams h0]
    rfl
  · intro hch
    rw [List.chain'_iff_get] at hch
    have h := hch 0 (by omega)
    rw [preySeq_get, preySeq_get] at h
    exact absurd h (not_le.mpr prey_dec_0)
  · intro hch
    rw [List.chain'_iff_get] at hch
    have h := hch 250 (by omega)
    rw [preySeq_get, preySeq_get] at h
    exact absurd h (not_le.mpr prey_inc_250)
  · intro hch
    rw [List.chain'_iff_get] at hch
    have h := hch 96 (by omega)
    rw [predatorsSeq_get, predatorsSeq_get] at h
    exact absurd h (not_le.mpr predators_dec_96)
  · intro hch
    rw [List.chain'_iff_get] at hch
    have h := hch 0 (by omega)
    rw [predatorsSeq_get, predatorsSeq_get] at h
    exact absurd h (not_le.mpr predators_inc_0)

/-- C1: at every integration step the simulator computes the derivative
pair from the current state as d(prey)/dt = prey_birth_rate * prey -
predation_rate * prey * predator and d(predator)/dt = predator_efficiency
* prey * predator - predator_loss_rate * predator, advances both
populations by derivative times step size (explicit Euler), and the new
state is appended to the trajectory at position `i + 1`. -/
theorem claim_C1_euler_step (p : Params) (i : ℕ) (h : i + 1 ≤ numSteps p) :
    (state p (i + 1)).1 = (state p i).1 +
      (p.prey_birth_rate * (state p i).1 -
        p.predation_rate * (state p i).1 * (state p i).2) * p.step_size ∧
    (state p (i + 1)).2 = (state p i).2 +
      (p.predator_efficiency * (state p i).1 * (state p i).2 -
        p.predator_loss_rate * (state p i).2) * p.step_size ∧
    (preySeq p).get? (i + 1) = some ((state p (i + 1)).1) ∧
    (predatorsSeq p).get? (i + 1) = some ((state p (i + 1)).2) := by
  have hi : i + 1 < numSteps p + 1 := by omega
  refine ⟨rfl, rfl, preySeq_get? p hi, predatorsSeq_get? p hi⟩

/-- Witness for C1 at the scenario parameters and step 0. -/
theorem claim_C1_euler_step_witness :
    0 + 1 ≤ numSteps scenarioParams ∧
    (state scenarioParams (0 + 1)).1 = (state scenarioParams 0).1 +
      (scenarioParams.prey_birth_rate * (state scenarioParams 0).1 -
        scenarioParams.predation_rate * (state scenarioParams 0).1 *
          (state scenarioParams 0).2) * scenarioParams.step_size := by
  have h : 0 + 1 ≤ numSteps scenarioParams := by rw [numSteps_scenario]; omega
  exact ⟨h, (claim_C1_euler_step scenarioParams 0 h).1⟩

/-- C3: for every valid parameter set whose step size evenly divides the
total time, the three returned sequences have identical, non-zero length
equal to floor(total_time / step_size) + 1, and the floor and the ceiling
of total_time / step_size agree. -/
theorem claim_C3_sequence_lengths (p : Params) (hdt : 0 < p.step_size)
    (hle : p.step_size ≤ p.total_time) :
    (timeSeq p).length = (preySeq p).length ∧
    (predatorsSeq p).length = (preySeq p).length ∧
    0 < (preySeq p).length ∧
    ((preySeq p).length : ℤ) = Int.floor (p.total_time / p.step_size) + 1 ∧
    (∀ k : ℕ, p.total_time = (k : ℚ) * p.step_size →
      Int.ceil (p.total_time / p.step_size) =
        Int.floor (p.total_time / p.step_size)) := by
  have hne : p.step_size ≠ 0 := ne_of_gt hdt
  have hfl0 : (0 : ℤ) ≤ Int.floor (p.total_time / p.step_size) := by
    apply Int.floor_nonneg.mpr
    have hT0 : (0 : ℚ) < p.total_time := lt_of_lt_of_le hdt hle
    positivity
  have hnsc : ((numSteps p : ℤ)) = Int.floor (p.total_time / p.step_size) := by
    rw [numSteps]
    exact Int.toNat_of_nonneg hfl0
  refine ⟨?_, ?_, ?_, ?_, ?_⟩
  · rw [timeSeq_length, preySeq_length]
  · rw [predatorsSeq_length, preySeq_length]
  · rw [preySeq_length]; omega
  · rw [preySeq_length]; push_cast [← hnsc]; ring
  · intro k hk
    have hdiv : p.total_time / p.step_size = (k : ℚ) := by
      rw [hk, mul_div_assoc, div_self hne, mul_one]
    have hfl : Int.floor (p.total_time / p.step_size) = (k : ℤ) := by
      rw [hdiv]; exact_mod_cast Int.floor_natCast k
    have hcl : Int.ceil (p.total_time / p.step_size) = (k : ℤ) := by
      rw [hdiv]; exact_mod_cast Int.ceil_natCast k
    rw [hfl, hcl]

/-- Witness for C3 at the scenario parameters with k = 1460. -/
theorem claim_C3_sequence_lengths_witness :
    ((0 : ℚ) < scenarioParams.step_size ∧
      scenarioParams.step_size ≤ scenarioParams.total_time ∧
      scenarioParams.total_time = (1460 : ℚ) * scenarioParams.step_size) ∧
    (timeSeq scenarioParams).length = (preySeq scenarioParams).length := by
  have h1 : (0 : ℚ) < scenarioParams.step_size := by norm_num [scenarioParams]
  have h2 : scenarioParams.step_size ≤ scenarioParams.total_time := by
    norm_num [scenarioParams]
  have h3 : scenarioParams.total_time = (1460 : ℚ) * scenarioParams.step_size := by
    norm_num [scenarioParams]
  exact ⟨⟨h1, h2, h3⟩, (claim_C3_sequence_lengths scenarioParams h1 h2).1⟩

/-- C4: for every valid parameter set, the time sequence starts at 0, is
strictly increasing with constant difference equal to the step size, and
its last element is the largest multiple of the step size not exceeding
the total time. -/
theorem claim_C4_time_grid (p : Params) (hdt : 0 < p.step_size)
    (hle : p.step_size ≤ p.total_time) :
    (timeSeq p).get? 0 = some 0 ∧
    (∀ i, i < numSteps p → ∃ t t', (timeSeq p).get? i = some t ∧
      (timeSeq p).get? (i + 1) = some t' ∧ t' = t + p.step_size ∧ t < t') ∧
    (timeSeq p).getLast? = some ((numSteps p : ℚ) * p.step_size) ∧
    (numSteps p : ℚ) * p.step_size ≤ p.total_time ∧
    (∀ k : ℕ, (k : ℚ) * p.step_size ≤ p.total_time →
      (k : ℚ) * p.step_size ≤ (numSteps p : ℚ) * p.step_size) := by
  have hT0 : (0 : ℚ) < p.total_time := lt_of_lt_of_le hdt hle
  have hfl0 : (0 : ℤ) ≤ Int.floor (p.total_time / p.step_size) := by
    apply Int.floor_nonneg.mpr
    positivity
  have hnsc : ((numSteps p : ℤ)) = Int.floor (p.total_time / p.step_size) := by
    rw [numSteps]
    exact Int.toNat_of_nonneg hfl0
  refine ⟨?_, ?_, ?_, ?_, ?_⟩
  · rw [timeSeq_get? p (Nat.succ_pos _)]
    norm_num
  · intro i hi
    refine ⟨(i : ℚ) * p.step_size, ((i : ℚ) + 1) * p.step_size,
      timeSeq_get? p (by omega), ?_, by ring, ?_⟩
    · rw [timeSeq_get? p (by omega)]
      push_cast
      ring_nf
    · nlinarith
  · rw [List.getLast?_eq_get?, timeSeq_length, Nat.add_sub_cancel,
      timeSeq_get? p (Nat.lt_succ_self _)]
  · have h1 : ((numSteps p : ℚ)) ≤ p.total_time / p.step_size := by
      have h0 := Int.floor_le (p.total_time / p.step_size)
      rw [← hnsc] at h0
      exact_mod_cast h0
    calc (numSteps p : ℚ) * p.step_size
        ≤ (p.total_time / p.step_size) * p.step_size :=
          mul_le_mul_of_nonneg_right h1 (le_of_lt hdt)
      _ = p.total_time := div_mul_cancel₀ _ (ne_of_gt hdt)
  · intro k hk
    have h1 : (k : ℚ) ≤ p.total_time / p.step_size := by
      rw [le_div_iff hdt]
      exact hk
    have h2 : (k : ℤ) ≤ Int.floor (p.total_time / p.step_size) := by
      apply Int.le_floor.mpr
      exact_mod_cast h1
    have h3 : k ≤ numSteps p := by omega
    have h4 : (k : ℚ) ≤ (numSteps p : ℚ) := by exact_mod_cast h3
    exact mul_le_mul_of_nonneg_right h4 (le_of_lt hdt)

/-- Witness for C4 at the scenario parameters. -/
theorem claim_C4_time_grid_witness :
    ((0 : ℚ) < scenarioParams.step_size ∧
      scenarioParams.step_size ≤ scenarioParams.total_time) ∧
    (timeSeq scenarioParams).get? 0 = some 0 := by
  have h1 : (0 : ℚ) < scenarioParams.step_size := by norm_num [scenarioParams]
  have h2 : scenarioParams.step_size ≤ scenarioParams.total_time := by
    norm_num [scenarioParams]
  exact ⟨⟨h1, h2⟩, (claim_C4_time_grid scenarioParams h1 h2).1⟩

/-- C5: the simulator is deterministic — two invocations with identical
raw parameters produce identical output, with no dependence on anything
but the arguments (the embedding is a pure function). -/
theorem claim_C5_deterministic (r1 r2 : RawParams) (h : r1 = r2) :
    PredPrey r1 = PredPrey r2 :=
  congrArg PredPrey h

/-- Witness for C5 at the scenario raw arguments. -/
theorem claim_C5_deterministic_witness :
    scenarioRaw = scenarioRaw ∧ PredPrey scenarioRaw = PredPrey scenarioRaw :=
  ⟨rfl, claim_C5_deterministic scenarioRaw scenarioRaw rfl⟩

/-- Validation fails exactly when some rate is non-finite, the step size is
non-positive, or the step size exceeds the total time. -/
theorem validParams_eq_false_iff (r : RawParams) :
    validParams r = false ↔
      (r.prey_birth_rate.isFinite = false ∨ r.predation_rate.isFinite = false ∨
       r.predator_efficiency.isFinite = false ∨
       r.predator_loss_rate.isFinite = false ∨
       r.step_size ≤ 0 ∨ r.total_time < r.step_size) := by
  constructor
  · intro h
    by_contra hc
    push_neg at hc
    obtain ⟨h1, h2, h3, h4, h5, h6⟩ := hc
    have hv : validParams r = true := by
      simp only [validParams, Bool.and_eq_true, decide_eq_true_iff]
      exact ⟨⟨⟨⟨⟨(Bool.eq_false_or_eq_true _).resolve_right h1,
        (Bool.eq_false_or_eq_true _).resolve_right h2⟩,
        (Bool.eq_false_or_eq_true _).resolve_right h3⟩,
        (Bool.eq_false_or_eq_true _).resolve_right h4⟩, h5⟩, h6⟩
    rw [hv] at h
    exact Bool.noConfusion h
  · intro h
    rcases h with h | h | h | h | h | h
    · simp [validParams, h]
    · simp [validParams, h]
    · simp [validParams, h]
    · simp [validParams, h]
    · have hd : decide (0 < r.step_size) = false := decide_eq_false (not_lt.mpr h)
      simp [validParams, hd]
    · have hd : decide (r.step_size ≤ r.total_time) = false :=
        decide_eq_false (not_le.mpr h)
      simp [validParams, hd]

/-- C6: the simulator fails with `InvalidParameter` if and only if some
rate is non-finite, the step size is non-positive, or the step size exceeds
the total time; `InvalidParameter` is the only error kind; and whenever the
simulator does not fail it returns the full simulation output, so the error
is decided synchronously before any integration. -/
theorem claim_C6_error_taxonomy (r : RawParams) :
    (PredPrey r = Except.error SimError.InvalidParameter ↔
      (r.prey_birth_rate.isFinite = false ∨ r.predation_rate.isFinite = false ∨
       r.predator_efficiency.isFinite = false ∨
       r.predator_loss_rate.isFinite = false ∨
       r.step_size ≤ 0 ∨ r.total_time < r.step_size)) ∧
    (∀ e : SimError, e = SimError.InvalidParameter) ∧
    (PredPrey r ≠ Except.error SimError.InvalidParameter →
      PredPrey r = Except.ok (simulate r.toParams)) := by
  have hiff : PredPrey r = Except.error SimError.InvalidParameter ↔
      validParams r = false := by
    cases hv : validParams r
    · simp [PredPrey, hv]
    · simp [PredPrey, hv]
  refine ⟨hiff.trans (validParams_eq_false_iff r), ?_, ?_⟩
  · intro e
    cases e
    rfl
  · intro h
    cases hv : validParams r
    · exact absurd (hiff.mpr hv) h
    · simp [PredPrey, hv]

/-- Witness for C6: step_size = -1 raises InvalidParameter. -/
theorem claim_C6_error_taxonomy_witness :
    PredPrey { scenarioRaw with step_size := -1 } =
      Except.error SimError.InvalidParameter := by
  apply (claim_C6_error_taxonomy { scenarioRaw with step_size := -1 }).1.mpr
  right; right; right; right; left
  norm_num

/-- C7: if all four rates are zero, every element of the prey sequence
equals the initial prey count and every element of the predator sequence
equals the initial predator count. -/
theorem claim_C7_zero_rates (p : Params) (h1 : p.prey_birth_rate = 0)
    (h2 : p.predation_rate = 0) (h3 : p.predator_efficiency = 0)
    (h4 : p.predator_loss_rate = 0) :
    ∀ i, i < numSteps p + 1 →
      (preySeq p).get? i = some p.initial_prey ∧
      (predatorsSeq p).get? i = some p.initial_predators := by
  have hstate : ∀ i, state p i = (p.initial_prey, p.initial_predators) := by
    intro i
    induction i with
    | zero => rfl
    | succ n ih =>
      rw [show state p (n + 1) = eulerStep p (state p n) from rfl, ih]
      simp [eulerStep, dPrey, dPredators, h1, h2, h3, h4]
  intro i hi
  rw [preySeq_get? p hi, predatorsSeq_get? p hi, hstate]
  exact ⟨rfl, rfl⟩

/-- The zero-rates parameters also have 1460 steps. -/
theorem numSteps_zeroRates : numSteps zeroRatesParams = 1460 := by
  norm_num [numSteps, zeroRatesParams]
  rfl

/-- Witness for C7 at the zero-rates parameters and sample 2. -/
theorem claim_C7_zero_rates_witness :
    (zeroRatesParams.prey_birth_rate = 0 ∧ zeroRatesParams.predation_rate = 0 ∧
      zeroRatesParams.predator_efficiency = 0 ∧
      zeroRatesParams.predator_loss_rate = 0 ∧ 2 < numSteps zeroRatesParams + 1) ∧
    (preySeq zeroRatesParams).get? 2 = some 50 := by
  have hi : 2 < numSteps zeroRatesParams + 1 := by rw [numSteps_zeroRates]; omega
  exact ⟨⟨rfl, rfl, rfl, rfl, hi⟩,
    (claim_C7_zero_rates zeroRatesParams rfl rfl rfl rfl 2 hi).1⟩

/-- C9: the simulator's output is a named mapping whose keys are exactly
"TIME", "predators" and "prey", each mapped to a sequence, and all three
sequences have equal length. -/
theorem claim_C9_output_mapping (p : Params) :
    (simulate p).map Prod.fst = ["TIME", "predators", "prey"] ∧
    (simulate p).map (fun kv => kv.2.length) =
      [numSteps p + 1, numSteps p + 1, numSteps p + 1] := by
  refine ⟨rfl, ?_⟩
  simp only [simulate, List.map_cons, List.map_nil, timeSeq_length,
    preySeq_length, predatorsSeq_length]

/-- C10: every rate combination inside the notebook's uncertainty ranges
is strictly positive, passes the simulator's validation, and makes the
simulator return its output rather than the InvalidParameter error. -/
theorem claim_C10_notebook_ranges (a b c d : ℚ)
    (h : List.Forall₂ (fun v u => u.2.1 ≤ v ∧ v ≤ u.2.2) [a, b, c, d]
      uncertainties) :
    (0 < a ∧ 0 < b ∧ 0 < c ∧ 0 < d) ∧
    validParams (defaultRaw a b c d) = true ∧
    PredPrey (defaultRaw a b c d) =
      Except.ok (simulate (defaultRaw a b c d).toParams) := by
  simp only [uncertainties] at h
  rcases h with _ | ⟨⟨ha1, ha2⟩, h⟩
  rcases h with _ | ⟨⟨hb1, hb2⟩, h⟩
  rcases h with _ | ⟨⟨hc1, hc2⟩, h⟩
  rcases h with _ | ⟨⟨hd1, hd2⟩, h⟩
  simp only at ha1 ha2 hb1 hb2 hc1 hc2 hd1 hd2
  have hpos : (0 : ℚ) < a ∧ (0 : ℚ) < b ∧ (0 : ℚ) < c ∧ (0 : ℚ) < d := by
    refine ⟨?_, ?_, ?_, ?_⟩ <;> linarith
  have hv : validParams (defaultRaw a b c d) = true := by
    simp only [validParams, defaultRaw, FloatVal.isFinite, Bool.and_eq_true,
      decide_eq_true_iff]
    norm_num
  refine ⟨hpos, hv, ?_⟩
  rw [PredPrey, hv, if_pos rfl]

/-- Witness for C10 at rates 0.02, 0.001, 0.002, 0.05. -/
theorem claim_C10_notebook_ranges_witness :
    List.Forall₂ (fun v u => u.2.1 ≤ v ∧ v ≤ u.2.2)
      [(1/50 : ℚ), 1/1000, 1/500, 1/20] uncertainties ∧
    PredPrey (defaultRaw (1/50) (1/1000) (1/500) (1/20)) =
      Except.ok (simulate (defaultRaw (1/50) (1/1000) (1/500) (1/20)).toParams) := by
  have h : List.Forall₂ (fun v u => u.2.1 ≤ v ∧ v ≤ u.2.2)
      [(1/50 : ℚ), 1/1000, 1/500, 1/20] uncertainties := by
    simp only [uncertainties]
    exact .cons (by norm_num) (.cons (by norm_num) (.cons (by norm_num)
      (.cons (by norm_num) .nil)))
  exact ⟨h, (claim_C10_notebook_ranges (1/50) (1/1000) (1/500) (1/20) h).2.2⟩
